import Mathlib

/-!
Shallow embedding of `src/central.rs` (module `central` of the iot_sdk crate),
a client-side adapter over the btleplug BLE stack.

Modelling conventions:
- Asynchronous streams (`impl Stream<Item = T>`) are modelled as `List T`:
  a (finite prefix of a) lazy pull-driven sequence, consumed in order.
- Fallible platform calls (`Result<T, btleplug::Error>`) are modelled as
  `Except PlatformError T`; the behaviour of the platform is part of the input
  (fields of `Peripheral` / `Adapter` / `Manager` record what each call
  would return).
- 128-bit UUIDs are modelled as `Nat`.  The source compares UUIDs via
  `Uuid::from_bytes(*c.uuid.as_bytes()) == characteristic_uuid`, a
  byte-level round trip that is the identity on the 16-byte value, so it
  is plain equality here.
- Byte payloads (`Vec<u8>` / `&[u8]`) are `List Nat`.
- Each operation additionally returns the list of platform calls it
  issued, in order, so that "performs zero platform calls" and
  "issues connect, then service discovery" are provable statements.
-/

namespace IotSdk

/-- An error bubbled up from the underlying btleplug platform stack.
The module never inspects it, only wraps it, so it is kept abstract as a
numeric code. -/
structure PlatformError where
  code : Nat
deriving DecidableEq

/-- btleplug `CentralEvent`: adapter-level discovery events.  The source
pattern-matches only `DeviceUpdated`; every other variant falls to the
catch-all arm. -/
inductive CentralEvent where
  | DeviceDiscovered (id : Nat)
  | DeviceUpdated (id : Nat)
  | DeviceConnected (id : Nat)
  | DeviceDisconnected (id : Nat)
  | ManufacturerDataAdvertisement (id : Nat)
  | ServiceDataAdvertisement (id : Nat)
  | ServicesAdvertisement (id : Nat)
deriving DecidableEq

/-- btleplug `PeripheralProperties`.  Only the `local_name` field is used
by this module; the remaining advertisement fields are never read. -/
structure PeripheralProperties where
  local_name : Option String
deriving DecidableEq

/-- btleplug `CharPropFlags`: the characteristic property flags.  The
source holds a flag set and checks membership via
`properties.iter().any(|c| c == FLAG)`; the set is modelled as the list
of set flags. -/
inductive CharPropFlags where
  | BROADCAST
  | READ
  | WRITE_WITHOUT_RESPONSE
  | WRITE
  | NOTIFY
  | INDICATE
  | AUTHENTICATED_SIGNED_WRITES
  | EXTENDED_PROPERTIES
deriving DecidableEq

/-- btleplug `Characteristic`, restricted to the fields the module reads:
its UUID and its property flags. -/
structure Characteristic where
  uuid : Nat
  properties : List CharPropFlags
deriving DecidableEq

/-- btleplug `ValueNotification`: a characteristic UUID plus a byte
payload, delivered on the peripheral-wide notification stream. -/
structure ValueNotification where
  uuid : Nat
  value : List Nat
deriving DecidableEq

/-- btleplug `WriteType`. -/
inductive WriteType where
  | WithResponse
  | WithoutResponse
deriving DecidableEq

/-- A platform call issued by the module, recorded for the effect trace.
`pid` is the peripheral the call targets. -/
inductive PlatformCall where
  | props (pid : Nat)
  | connect (pid : Nat)
  | discoverServices (pid : Nat)
  | readChar (pid : Nat) (uuid : Nat)
  | writeChar (pid : Nat) (uuid : Nat) (data : List Nat) (mode : WriteType)
  | subscribeChar (pid : Nat) (uuid : Nat)
  | notificationsCall (pid : Nat)
deriving DecidableEq

/-- A platform peripheral handle.  The `...Result` fields record what the
corresponding platform call would return for this handle. -/
structure Peripheral where
  id : Nat
  propertiesResult : Except PlatformError (Option PeripheralProperties)
  characteristics : List Characteristic
  connectResult : Except PlatformError Unit
  discoverServicesResult : Except PlatformError Unit
  readResult : Nat → Except PlatformError (List Nat)
  writeResult : Nat → List Nat → WriteType → Except PlatformError Unit
  subscribeResult : Nat → Except PlatformError Unit
  notificationsResult : Except PlatformError (List ValueNotification)

/-- A platform adapter: its live event stream (`events()`), the outcome
of `start_scan`, and peripheral lookup by identifier. -/
structure Adapter where
  eventsResult : Except PlatformError (List CentralEvent)
  startScanResult : Except PlatformError Unit
  peripheral : Nat → Except PlatformError Peripheral

/-- The platform manager (btleplug `platform::Manager`): enumerates the
available adapters. -/
structure Manager where
  adaptersResult : Except PlatformError (List Adapter)

/-- The platform as seen by `Central::new`: creating the manager may
itself fail. -/
structure Platform where
  managerResult : Except PlatformError Manager

/-- The error enum of the module (`central::Error`).  `BtlePlug` wraps any
error of the underlying stack (the `#[from]` variant). -/
inductive Error where
  | BtlePlug (source : PlatformError)
  | AdapterNotFound
  | PeripheralPropertiesNotFound
  | PeripheralNotFound
  | LocalNameNotFound
  | CharacteristicNotFound
  | CharacteristicDoesNotSupportRead
  | CharacteristicDoesNotSupportWrite
  | CharacteristicDoesNotSupportNotify
deriving DecidableEq

/-- Rust `str::contains(pat)` with a string pattern: case-sensitive
substring search.  Because valid UTF-8 is self-synchronizing, byte-level
substring containment of one valid string in another coincides with
containment of the character sequences, so it is modelled as list-infix
on the characters. -/
def strContains (haystack needle : String) : Bool :=
  decide (needle.data <:+: haystack.data)

/-- `Central::new`: create the platform manager, enumerate adapters, take
the first (`into_iter().nth(0)`), fail with `AdapterNotFound` if none. -/
def Central.new (platform : Platform) : Except Error Adapter :=
  match platform.managerResult with
  | .error e => .error (.BtlePlug e)
  | .ok manager =>
    match manager.adaptersResult with
    | .error e => .error (.BtlePlug e)
    | .ok adapters =>
      match adapters.head? with
      | none => .error Error.AdapterNotFound
      | some central => .ok central

/-- `Central::events`: obtain the event stream of the adapter, then start an
unfiltered scan; either platform failure aborts. -/
def Central.events (a : Adapter) : Except Error (List CentralEvent) :=
  match a.eventsResult with
  | .error e => .error (.BtlePlug e)
  | .ok events =>
    match a.startScanResult with
    | .error e => .error (.BtlePlug e)
    | .ok _ => .ok events

/-- The closure inside `Central::peripherals` applied to one event: a
`DeviceUpdated` id is looked up via the adapter; any other event kind is
mapped to `Err(PeripheralNotFound)`; then `Err(_) => None` absorbs every
error into a dropped item. -/
def Central.projectEvent (a : Adapter) (central_event : CentralEvent) : Option Peripheral :=
  let result : Except Error Peripheral :=
    match central_event with
    | .DeviceUpdated id =>
      match a.peripheral id with
      | .ok peripheral => .ok peripheral
      | .error e => .error (.BtlePlug e)
    | _ => .error Error.PeripheralNotFound
  match result with
  | .ok peripheral => some peripheral
  | .error _ => none

/-- The `filter_map` stage of `Central::peripherals` over the event
stream. -/
def Central.peripheralStream (a : Adapter) (events : List CentralEvent) : List Peripheral :=
  events.filterMap (Central.projectEvent a)

/-- `Central::peripherals`: the event stream projected to peripheral
handles (private helper in the source). -/
def Central.peripherals (a : Adapter) : Except Error (List Peripheral) :=
  match Central.events a with
  | .error e => .error e
  | .ok events => .ok (Central.peripheralStream a events)

/-- The closure inside `Central::peripheral_properties` applied to one
peripheral: fetch properties; a platform error or an absent snapshot
(`PeripheralPropertiesNotFound`) is absorbed into a dropped item. -/
def Central.projectProperties (p : Peripheral) : Option PeripheralProperties :=
  let result : Except Error PeripheralProperties :=
    match p.propertiesResult with
    | .error e => .error (.BtlePlug e)
    | .ok none => .error Error.PeripheralPropertiesNotFound
    | .ok (some properties) => .ok properties
  match result with
  | .ok properties => some properties
  | .error _ => none

/-- The `filter_map` stage of `Central::peripheral_properties` over the
peripheral stream. -/
def Central.propertiesStream (ps : List Peripheral) : List PeripheralProperties :=
  ps.filterMap Central.projectProperties

/-- `Central::peripheral_properties`: the peripheral stream further
projected to property snapshots. -/
def Central.peripheral_properties (a : Adapter) : Except Error (List PeripheralProperties) :=
  match Central.peripherals a with
  | .error e => .error e
  | .ok ps => .ok (Central.propertiesStream ps)

/-- Outcome of the `loop` in `Central::find_peripheral` over a (finite
prefix of the) peripheral stream.  `diverges` records that the loop
consumed the whole finite stream without breaking: in the source,
`peripherals.next().await` then keeps yielding `None` and the
`loop` has no other exit, so the call never returns. -/
inductive FindOutcome where
  | found (peripheral : Peripheral)
  | error (e : Error)
  | diverges
deriving Inhabited

/-- The search `loop` of `Central::find_peripheral`: per candidate, fetch
properties (`?` propagates a platform error), fail on an absent snapshot
or absent local name, break on the first candidate whose local name
contains the requested name.  Also returns the platform calls issued. -/
def findLoop (local_name : String) : List Peripheral → FindOutcome × List PlatformCall
  | [] => (.diverges, [])
  | peripheral :: rest =>
    match peripheral.propertiesResult with
    | .error e => (.error (.BtlePlug e), [.props peripheral.id])
    | .ok none => (.error Error.PeripheralPropertiesNotFound, [.props peripheral.id])
    | .ok (some properties) =>
      match properties.local_name with
      | none => (.error Error.LocalNameNotFound, [.props peripheral.id])
      | some peripheral_local_name =>
        if strContains peripheral_local_name local_name then
          (.found peripheral, [.props peripheral.id])
        else
          let next := findLoop local_name rest
          (next.1, .props peripheral.id :: next.2)

/-- `Central::find_peripheral`: run the search loop over the peripheral
stream; on the first match, connect, then discover services, and return
the peripheral.  Platform calls are returned in issue order. -/
def Central.find_peripheral (a : Adapter) (local_name : String) :
    FindOutcome × List PlatformCall :=
  match Central.peripherals a with
  | .error e => (.error e, [])
  | .ok ps =>
    match findLoop local_name ps with
    | (FindOutcome.found peripheral, calls) =>
      match peripheral.connectResult with
      | .error e => (.error (.BtlePlug e), calls ++ [.connect peripheral.id])
      | .ok _ =>
        match peripheral.discoverServicesResult with
        | .error e =>
          (.error (.BtlePlug e),
            calls ++ [.connect peripheral.id, .discoverServices peripheral.id])
        | .ok _ =>
          (.found peripheral,
            calls ++ [.connect peripheral.id, .discoverServices peripheral.id])
    | other => other

/-- The shared characteristic lookup of `read`/`write`/`subscribe`:
`characteristics.iter().find(|c| uuid matches)`. -/
def findCharacteristic (peripheral : Peripheral) (characteristic_uuid : Nat) :
    Option Characteristic :=
  peripheral.characteristics.find? (fun c => c.uuid == characteristic_uuid)

/-- `Central::read`: locate the characteristic, require the READ flag,
then issue a single platform read. -/
def Central.read (peripheral : Peripheral) (characteristic_uuid : Nat) :
    Except Error (List Nat) × List PlatformCall :=
  match findCharacteristic peripheral characteristic_uuid with
  | none => (.error Error.CharacteristicNotFound, [])
  | some characteristic =>
    if !(characteristic.properties.any (fun c => c == CharPropFlags.READ)) then
      (.error Error.CharacteristicDoesNotSupportRead, [])
    else
      match peripheral.readResult characteristic.uuid with
      | .error e => (.error (.BtlePlug e), [.readChar peripheral.id characteristic.uuid])
      | .ok result => (.ok result, [.readChar peripheral.id characteristic.uuid])

/-- `Central::write`: locate the characteristic, require the WRITE flag,
then write the given bytes with `WriteType::WithoutResponse`. -/
def Central.write (peripheral : Peripheral) (characteristic_uuid : Nat)
    (data : List Nat) : Except Error Unit × List PlatformCall :=
  match findCharacteristic peripheral characteristic_uuid with
  | none => (.error Error.CharacteristicNotFound, [])
  | some characteristic =>
    if !(characteristic.properties.any (fun c => c == CharPropFlags.WRITE)) then
      (.error Error.CharacteristicDoesNotSupportWrite, [])
    else
      match peripheral.writeResult characteristic.uuid data WriteType.WithoutResponse with
      | .error e =>
        (.error (.BtlePlug e),
          [.writeChar peripheral.id characteristic.uuid data WriteType.WithoutResponse])
      | .ok _ =>
        (.ok (),
          [.writeChar peripheral.id characteristic.uuid data WriteType.WithoutResponse])

/-- `Central::subscribe`: locate the characteristic, require the NOTIFY
flag, issue the subscribe request, then return the peripheral-wide
notification stream filtered to the target UUID. -/
def Central.subscribe (peripheral : Peripheral) (characteristic_uuid : Nat) :
    Except Error (List ValueNotification) × List PlatformCall :=
  match findCharacteristic peripheral characteristic_uuid with
  | none => (.error Error.CharacteristicNotFound, [])
  | some characteristic =>
    if !(characteristic.properties.any (fun c => c == CharPropFlags.NOTIFY)) then
      (.error Error.CharacteristicDoesNotSupportNotify, [])
    else
      match peripheral.subscribeResult characteristic.uuid with
      | .error e =>
        (.error (.BtlePlug e), [.subscribeChar peripheral.id characteristic.uuid])
      | .ok _ =>
        match peripheral.notificationsResult with
        | .error e =>
          (.error (.BtlePlug e),
            [.subscribeChar peripheral.id characteristic.uuid,
              .notificationsCall peripheral.id])
        | .ok stream =>
          (.ok (stream.filter (fun n => n.uuid == characteristic_uuid)),
            [.subscribeChar peripheral.id characteristic.uuid,
              .notificationsCall peripheral.id])

/-- A candidate in the search loop resolves to local name `nm`: its
property fetch succeeds with a present snapshot whose local name is
present and equal to `nm`. -/
def resolvesName (p : Peripheral) (nm : String) : Prop :=
  p.propertiesResult = Except.ok (some { local_name := some nm })

/-- Fixture: a characteristic advertising READ, WRITE and NOTIFY. -/
def charA : Characteristic :=
  { uuid := 10, properties := [CharPropFlags.READ, CharPropFlags.WRITE, CharPropFlags.NOTIFY] }

/-- Fixture: a characteristic advertising no capability at all. -/
def charBare : Characteristic := { uuid := 11, properties := [] }

/-- Fixture notifications: two for UUID 10 interleaved with one for 12. -/
def notifA1 : ValueNotification := { uuid := 10, value := [1] }

def notifB : ValueNotification := { uuid := 12, value := [2] }

def notifA2 : ValueNotification := { uuid := 10, value := [3] }

/-- Fixture: a peripheral advertising local name FooBar, all platform
calls succeeding. -/
def pFooBar : Peripheral :=
  { id := 1
  , propertiesResult := .ok (some { local_name := some "FooBar" })
  , characteristics := [charA, charBare]
  , connectResult := .ok ()
  , discoverServicesResult := .ok ()
  , readResult := fun _ => .ok [1, 2]
  , writeResult := fun _ _ _ => .ok ()
  , subscribeResult := fun _ => .ok ()
  , notificationsResult := .ok [notifA1, notifB, notifA2] }

/-- Fixture: a peripheral advertising local name Bar. -/
def pBar : Peripheral :=
  { pFooBar with id := 2, propertiesResult := .ok (some { local_name := some "Bar" }) }

/-- Fixture: a peripheral whose property fetch succeeds but yields no
snapshot. -/
def pNoProps : Peripheral :=
  { pFooBar with id := 3, propertiesResult := .ok none }

/-- Fixture adapter: its event stream announces peripheral 2 (Bar), an
unrelated connection event, then peripheral 1 (FooBar). -/
def aEx : Adapter :=
  { eventsResult := .ok [CentralEvent.DeviceUpdated 2, CentralEvent.DeviceConnected 9,
      CentralEvent.DeviceUpdated 1]
  , startScanResult := .ok ()
  , peripheral := fun id =>
      if id = 1 then .ok pFooBar else if id = 2 then .ok pBar else .error { code := 7 } }

/-- Fixture adapter announcing only the peripheral without properties. -/
def aNoProps : Adapter :=
  { eventsResult := .ok [CentralEvent.DeviceUpdated 3]
  , startScanResult := .ok ()
  , peripheral := fun id => if id = 3 then .ok pNoProps else .error { code := 7 } }

/-- Fixture platform exposing two adapters, `aEx` first. -/
def platformEx : Platform :=
  { managerResult := .ok { adaptersResult := .ok [aEx, aNoProps] } }

/-- The search loop passes over a candidate that resolves to a local
name not containing the requested name, recording only its property
fetch, and continues with the rest of the stream. -/
theorem findLoop_cons_skip (local_name nm : String) (q : Peripheral)
    (rest : List Peripheral) (hq : resolvesName q nm)
    (hnm : strContains nm local_name = false) :
    findLoop local_name (q :: rest) =
      ((findLoop local_name rest).1,
        PlatformCall.props q.id :: (findLoop local_name rest).2) := by
  unfold resolvesName at hq
  simp [findLoop, hq, hnm]

/-- The search loop passes over any front segment of candidates that all
resolve to non-matching local names. -/
theorem findLoop_append_skip (local_name : String) (front rest : List Peripheral)
    (h : ∀ q ∈ front, ∃ nm, resolvesName q nm ∧ strContains nm local_name = false) :
    findLoop local_name (front ++ rest) =
      ((findLoop local_name rest).1,
        front.map (fun q => PlatformCall.props q.id) ++ (findLoop local_name rest).2) := by
  induction front with
  | nil => simp
  | cons q front ih =>
    obtain ⟨nm, hq, hnm⟩ := h q (List.mem_cons_self q front)
    have hrest := ih (fun r hr => h r (List.mem_cons_of_mem q hr))
    rw [List.cons_append, findLoop_cons_skip local_name nm q (front ++ rest) hq hnm, hrest]
    simp

/-- Claim C1: `find_peripheral` matches a candidate exactly when the
requested name is a case-sensitive substring of the advertised local
name of the candidate; on the first matching candidate it stops
consuming the stream (the result and the platform calls are independent
of the rest of the stream), issues connect, then service discovery, and
returns that peripheral. -/
theorem find_peripheral_substring_first_match
    (a : Adapter) (local_name : String) (front rest : List Peripheral)
    (p : Peripheral) (nm : String)
    (hstream : Central.peripherals a = .ok (front ++ p :: rest))
    (hfront : ∀ q ∈ front, ∃ nmq, resolvesName q nmq ∧ strContains nmq local_name = false)
    (hp : resolvesName p nm)
    (hconn : p.connectResult = .ok ())
    (hdisc : p.discoverServicesResult = .ok ()) :
    (strContains nm local_name = true ↔ local_name.data <:+: nm.data)
    ∧ (strContains nm local_name = true →
        Central.find_peripheral a local_name =
          (FindOutcome.found p,
            front.map (fun q => PlatformCall.props q.id) ++
              [PlatformCall.props p.id, PlatformCall.connect p.id,
                PlatformCall.discoverServices p.id])) := by
  constructor
  · simp [strContains]
  · intro hmatch
    have hloop := findLoop_append_skip local_name front (p :: rest) hfront
    have hcons : findLoop local_name (p :: rest) = (.found p, [.props p.id]) := by
      unfold resolvesName at hp
      simp [findLoop, hp, hmatch]
    rw [hcons] at hloop
    simp only [Central.find_peripheral, hstream, hloop, hconn, hdisc]
    simp

/-- Claim C1 witness: on a stream delivering a peripheral named Bar and
then one named FooBar, `find_peripheral` with requested name Foo skips
Bar, matches FooBar by substring, connects, discovers services, and
returns it. -/
theorem find_peripheral_substring_first_match_witness :
    Central.find_peripheral aEx "Foo" =
      (FindOutcome.found pFooBar,
        [PlatformCall.props 2, PlatformCall.props 1, PlatformCall.connect 1,
          PlatformCall.discoverServices 1]) := by
  have h := find_peripheral_substring_first_match aEx "Foo" [pBar] [] pFooBar "FooBar"
    rfl
    (by
      intro q hq
      rw [List.mem_singleton] at hq
      subst hq
      exact ⟨"Bar", rfl, by decide⟩)
    rfl rfl rfl
  have h2 := h.2 (by decide)
  simpa [pBar, pFooBar] using h2

/-- Claim C4: in `find_peripheral`, a candidate whose property snapshot
is absent fails the whole call with `PeripheralPropertiesNotFound`, one
whose local name is absent fails it with `LocalNameNotFound`, and a
platform error on the property fetch aborts the whole search with that
error wrapped; in every case the rest of the stream is never consumed
(the loop does not skip such a candidate and continue). -/
theorem find_peripheral_error_propagation
    (a : Adapter) (local_name : String) (front rest : List Peripheral) (p : Peripheral)
    (hstream : Central.peripherals a = .ok (front ++ p :: rest))
    (hfront : ∀ q ∈ front, ∃ nmq, resolvesName q nmq ∧ strContains nmq local_name = false) :
    (p.propertiesResult = .ok none →
        Central.find_peripheral a local_name =
          (FindOutcome.error Error.PeripheralPropertiesNotFound,
            front.map (fun q => PlatformCall.props q.id) ++ [PlatformCall.props p.id]))
    ∧ (∀ properties, p.propertiesResult = .ok (some properties) →
        properties.local_name = none →
        Central.find_peripheral a local_name =
          (FindOutcome.error Error.LocalNameNotFound,
            front.map (fun q => PlatformCall.props q.id) ++ [PlatformCall.props p.id]))
    ∧ (∀ e, p.propertiesResult = .error e →
        Central.find_peripheral a local_name =
          (FindOutcome.error (Error.BtlePlug e),
            front.map (fun q => PlatformCall.props q.id) ++ [PlatformCall.props p.id])) := by
  have step : ∀ E : Error,
      findLoop local_name (p :: rest) = (FindOutcome.error E, [PlatformCall.props p.id]) →
      Central.find_peripheral a local_name =
        (FindOutcome.error E,
          front.map (fun q => PlatformCall.props q.id) ++ [PlatformCall.props p.id]) := by
    intro E hcons
    have hloop := findLoop_append_skip local_name front (p :: rest) hfront
    rw [hcons] at hloop
    simp only [Central.find_peripheral, hstream, hloop]
  refine ⟨fun hnone => step _ (by simp [findLoop, hnone]),
    fun properties hsome hname => step _ (by simp [findLoop, hsome, hname]),
    fun e herr => step _ (by simp [findLoop, herr])⟩

/-- Claim C4 witness: a stream whose first candidate has no property
snapshot makes the whole search fail with
`PeripheralPropertiesNotFound`. -/
theorem find_peripheral_error_propagation_witness :
    Central.find_peripheral aNoProps "Foo" =
      (FindOutcome.error Error.PeripheralPropertiesNotFound, [PlatformCall.props 3]) := by
  have h := (find_peripheral_error_propagation aNoProps "Foo" [] [] pNoProps
    rfl (by intro q hq; cases hq)).1 rfl
  simpa [pNoProps, pFooBar] using h

/-- Claim C8: over a finite stream in which every candidate resolves to
a local name that does not contain the requested name, the search loop
of `find_peripheral` consumes the whole stream and diverges: there is no
end-of-stream exit and no timeout, so the call never returns. -/
theorem find_peripheral_no_match_diverges
    (a : Adapter) (local_name : String) (ps : List Peripheral)
    (hstream : Central.peripherals a = .ok ps)
    (hall : ∀ q ∈ ps, ∃ nmq, resolvesName q nmq ∧ strContains nmq local_name = false) :
    (Central.find_peripheral a local_name).1 = FindOutcome.diverges := by
  have hloop := findLoop_append_skip local_name ps [] hall
  rw [List.append_nil] at hloop
  simp only [Central.find_peripheral, hstream, hloop]
  simp [findLoop]

/-- Claim C8 witness: searching for Quux over the finite fixture stream
(which delivers Bar and FooBar, neither containing Quux) diverges. -/
theorem find_peripheral_no_match_diverges_witness :
    (Central.find_peripheral aEx "Quux").1 = FindOutcome.diverges := by
  refine find_peripheral_no_match_diverges aEx "Quux" [pBar, pFooBar] rfl ?_
  intro q hq
  rw [List.mem_cons, List.mem_singleton] at hq
  rcases hq with h | h
  · subst h; exact ⟨"Bar", rfl, by decide⟩
  · subst h; exact ⟨"FooBar", rfl, by decide⟩

/-- Claim C3: the event projection emits exactly one peripheral handle
per DeviceUpdated event whose identifier resolves, and nothing for a
DeviceUpdated event whose resolution fails or for any other event kind;
a dropped event neither terminates the stream nor surfaces an error (the
rest of the stream is still projected). -/
theorem peripherals_projection (a : Adapter) :
    (∀ id p, a.peripheral id = .ok p →
        Central.projectEvent a (CentralEvent.DeviceUpdated id) = some p)
    ∧ (∀ id e, a.peripheral id = .error e →
        Central.projectEvent a (CentralEvent.DeviceUpdated id) = none)
    ∧ (∀ ev : CentralEvent, (∀ id, ev ≠ CentralEvent.DeviceUpdated id) →
        Central.projectEvent a ev = none)
    ∧ (∀ ev evs p, Central.projectEvent a ev = some p →
        Central.peripheralStream a (ev :: evs) = p :: Central.peripheralStream a evs)
    ∧ (∀ ev evs, Central.projectEvent a ev = none →
        Central.peripheralStream a (ev :: evs) = Central.peripheralStream a evs) := by
  refine ⟨?_, ?_, ?_, ?_, ?_⟩
  · intro id p h; simp [Central.projectEvent, h]
  · intro id e h; simp [Central.projectEvent, h]
  · intro ev h
    cases ev <;> first
      | exact absurd rfl (h _)
      | simp [Central.projectEvent]
  · intro ev evs p h; simp [Central.peripheralStream, List.filterMap_cons, h]
  · intro ev evs h; simp [Central.peripheralStream, List.filterMap_cons, h]

/-- Claim C3 witness: on the fixture adapter, a DeviceUpdated event with
a resolvable identifier projects to its peripheral, a DeviceConnected
event projects to nothing, and a DeviceUpdated event whose lookup fails
projects to nothing. -/
theorem peripherals_projection_witness :
    Central.projectEvent aEx (CentralEvent.DeviceUpdated 1) = some pFooBar
    ∧ Central.projectEvent aEx (CentralEvent.DeviceConnected 9) = none
    ∧ Central.projectEvent aEx (CentralEvent.DeviceUpdated 99) = none :=
  ⟨(peripherals_projection aEx).1 1 pFooBar rfl,
    (peripherals_projection aEx).2.2.1 (CentralEvent.DeviceConnected 9) (fun id => by simp),
    (peripherals_projection aEx).2.1 99 { code := 7 } rfl⟩

/-- Claim C7: the properties projection emits the snapshot exactly when
the property fetch succeeds with a present value; a platform error or an
absent snapshot drops the item without terminating the stream; and once
the peripheral stream is available the properties stream is returned
without any error (per-item failures are absorbed). -/
theorem peripheral_properties_projection (a : Adapter) :
    (∀ p properties, Central.projectProperties p = some properties ↔
        p.propertiesResult = .ok (some properties))
    ∧ (∀ p e, p.propertiesResult = .error e → Central.projectProperties p = none)
    ∧ (∀ p, p.propertiesResult = .ok none → Central.projectProperties p = none)
    ∧ (∀ p ps, Central.projectProperties p = none →
        Central.propertiesStream (p :: ps) = Central.propertiesStream ps)
    ∧ (∀ p ps properties, Central.projectProperties p = some properties →
        Central.propertiesStream (p :: ps) = properties :: Central.propertiesStream ps)
    ∧ (∀ ps, Central.peripherals a = .ok ps →
        Central.peripheral_properties a = .ok (Central.propertiesStream ps)) := by
  refine ⟨?_, ?_, ?_, ?_, ?_, ?_⟩
  · intro p properties
    cases h : p.propertiesResult with
    | error e => simp [Central.projectProperties, h]
    | ok o => cases o <;> simp [Central.projectProperties, h]
  · intro p e h; simp [Central.projectProperties, h]
  · intro p h; simp [Central.projectProperties, h]
  · intro p ps h; simp [Central.propertiesStream, List.filterMap_cons, h]
  · intro p ps properties h; simp [Central.propertiesStream, List.filterMap_cons, h]
  · intro ps h; simp [Central.peripheral_properties, h]

/-- Claim C7 witness: the FooBar fixture projects to its snapshot, the
fixture without a snapshot projects to nothing, and on the fixture
adapter the whole properties stream is returned without error. -/
theorem peripheral_properties_projection_witness :
    Central.projectProperties pFooBar = some { local_name := some "FooBar" }
    ∧ Central.projectProperties pNoProps = none
    ∧ Central.peripheral_properties aEx = .ok (Central.propertiesStream [pBar, pFooBar]) :=
  ⟨((peripheral_properties_projection aEx).1 pFooBar _).mpr rfl,
    (peripheral_properties_projection aEx).2.2.1 pNoProps rfl,
    (peripheral_properties_projection aEx).2.2.2.2.2 [pBar, pFooBar] rfl⟩

/-- Claim C9: when the platform enumeration succeeds, `new` returns the
first adapter of a non-empty enumeration, and returns `AdapterNotFound`
exactly when the enumeration is empty. -/
theorem new_first_adapter (platform : Platform) (manager : Manager)
    (adapters : List Adapter)
    (hm : platform.managerResult = .ok manager)
    (ha : manager.adaptersResult = .ok adapters) :
    (∀ x xs, adapters = x :: xs → Central.new platform = .ok x)
    ∧ (Central.new platform = .error Error.AdapterNotFound ↔ adapters = []) := by
  constructor
  · intro x xs hx
    subst hx
    simp [Central.new, hm, ha]
  · cases adapters with
    | nil => simp [Central.new, hm, ha]
    | cons x xs => simp [Central.new, hm, ha]

/-- Claim C9 witness: on the fixture platform exposing two adapters,
`new` returns the first one. -/
theorem new_first_adapter_witness : Central.new platformEx = .ok aEx :=
  (new_first_adapter platformEx { adaptersResult := .ok [aEx, aNoProps] }
    [aEx, aNoProps] rfl rfl).1 aEx [aNoProps] rfl

/-- Claim C2: each of read, write and subscribe first locates the
characteristic by UUID, returning `CharacteristicNotFound` when absent;
when present but lacking the READ / WRITE / NOTIFY flag it returns the
corresponding capability error; in both failure cases the platform-call
trace is empty (zero platform calls reach the peripheral). -/
theorem capability_checks (p : Peripheral) (u : Nat) :
    (findCharacteristic p u = none →
        Central.read p u = (.error Error.CharacteristicNotFound, [])
        ∧ (∀ data, Central.write p u data = (.error Error.CharacteristicNotFound, []))
        ∧ Central.subscribe p u = (.error Error.CharacteristicNotFound, []))
    ∧ (∀ c, findCharacteristic p u = some c →
        (c.properties.any (fun f => f == CharPropFlags.READ) = false →
            Central.read p u = (.error Error.CharacteristicDoesNotSupportRead, []))
        ∧ (c.properties.any (fun f => f == CharPropFlags.WRITE) = false →
            ∀ data, Central.write p u data = (.error Error.CharacteristicDoesNotSupportWrite, []))
        ∧ (c.properties.any (fun f => f == CharPropFlags.NOTIFY) = false →
            Central.subscribe p u = (.error Error.CharacteristicDoesNotSupportNotify, []))) := by
  constructor
  · intro h
    exact ⟨by simp [Central.read, h], fun data => by simp [Central.write, h],
      by simp [Central.subscribe, h]⟩
  · intro c hc
    exact ⟨fun hf => by simp [Central.read, hc, hf],
      fun hf data => by simp [Central.write, hc, hf],
      fun hf => by simp [Central.subscribe, hc, hf]⟩

/-- Claim C2 witness: on the fixture peripheral, UUID 99 is absent and
yields `CharacteristicNotFound`, and UUID 11 (no flags) yields the three
capability errors, all with an empty platform-call trace. -/
theorem capability_checks_witness :
    Central.read pFooBar 99 = (.error Error.CharacteristicNotFound, [])
    ∧ Central.read pFooBar 11 = (.error Error.CharacteristicDoesNotSupportRead, [])
    ∧ Central.write pFooBar 11 [1] = (.error Error.CharacteristicDoesNotSupportWrite, [])
    ∧ Central.subscribe pFooBar 11 = (.error Error.CharacteristicDoesNotSupportNotify, []) :=
  ⟨((capability_checks pFooBar 99).1 rfl).1,
    ((capability_checks pFooBar 11).2 charBare rfl).1 rfl,
    ((capability_checks pFooBar 11).2 charBare rfl).2.1 rfl [1],
    ((capability_checks pFooBar 11).2 charBare rfl).2.2 rfl⟩

/-- Claim C6: on a characteristic carrying the WRITE flag, `write`
issues exactly one platform write carrying the payload unmodified and
always in WithoutResponse mode, and succeeds when the transport accepts
the write. -/
theorem write_without_response (p : Peripheral) (u : Nat) (c : Characteristic)
    (data : List Nat)
    (hfind : findCharacteristic p u = some c)
    (hflag : c.properties.any (fun f => f == CharPropFlags.WRITE) = true) :
    (Central.write p u data).2 =
        [PlatformCall.writeChar p.id c.uuid data WriteType.WithoutResponse]
    ∧ (p.writeResult c.uuid data WriteType.WithoutResponse = .ok () →
        (Central.write p u data).1 = .ok ()) := by
  cases hw : p.writeResult c.uuid data WriteType.WithoutResponse with
  | error e =>
    constructor
    · simp [Central.write, hfind, hflag, hw]
    · intro hok
      simp at hok
  | ok v =>
    cases v
    constructor
    · simp [Central.write, hfind, hflag, hw]
    · intro hok
      simp [Central.write, hfind, hflag, hw]

/-- Claim C6 witness: writing bytes 1, 2 to the fixture characteristic
with the WRITE flag succeeds and forwards exactly that payload in
WithoutResponse mode. -/
theorem write_without_response_witness :
    (Central.write pFooBar 10 [1, 2]).2 =
        [PlatformCall.writeChar 1 10 [1, 2] WriteType.WithoutResponse]
    ∧ (Central.write pFooBar 10 [1, 2]).1 = .ok () := by
  have h := write_without_response pFooBar 10 charA [1, 2] rfl rfl
  exact ⟨h.1, h.2 rfl⟩

/-- Claim C5: the stream returned by subscribe yields exactly the
notifications whose UUID equals the target, unmodified and in the same
relative order as the peripheral-wide stream delivered them: it is
precisely the UUID-filtered input, so it is a sublist of the input in
which every matching notification occurs with its exact multiplicity
(duplicated matching notifications are all yielded) and nothing else
occurs. -/
theorem subscribe_filters_by_uuid (p : Peripheral) (u : Nat) (c : Characteristic)
    (ns : List ValueNotification)
    (hfind : findCharacteristic p u = some c)
    (hflag : c.properties.any (fun f => f == CharPropFlags.NOTIFY) = true)
    (hsub : p.subscribeResult c.uuid = .ok ())
    (hns : p.notificationsResult = .ok ns) :
    ∃ out, (Central.subscribe p u).1 = .ok out
      ∧ out = ns.filter (fun n => n.uuid == u)
      ∧ (∀ n ∈ out, n.uuid = u)
      ∧ out.Sublist ns
      ∧ (∀ n ∈ ns, n.uuid = u → n ∈ out)
      ∧ (∀ n : ValueNotification, out.count n = if n.uuid = u then ns.count n else 0) := by
  refine ⟨ns.filter (fun n => n.uuid == u), ?_, rfl, ?_, ?_, ?_, ?_⟩
  · simp [Central.subscribe, hfind, hflag, hsub, hns]
  · intro n hn
    have := List.of_mem_filter hn
    simpa using this
  · exact List.filter_sublist ns
  · intro n hn hu
    exact List.mem_filter.mpr ⟨hn, by simpa using hu⟩
  · intro n
    by_cases h : n.uuid = u
    · rw [if_pos h]
      exact List.count_filter (by simpa using h)
    · rw [if_neg h]
      refine List.count_eq_zero.mpr ?_
      intro hmem
      exact h (by simpa using List.of_mem_filter hmem)

/-- Claim C5 witness: subscribing to UUID 10 on the fixture peripheral,
whose stream interleaves UUIDs 10 and 12, yields exactly the UUID 10
notifications, with their multiplicities, in their original relative
order. -/
theorem subscribe_filters_by_uuid_witness :
    ∃ out, (Central.subscribe pFooBar 10).1 = .ok out
      ∧ out = [notifA1, notifB, notifA2].filter (fun n => n.uuid == 10)
      ∧ (∀ n ∈ out, n.uuid = 10)
      ∧ out.Sublist [notifA1, notifB, notifA2]
      ∧ (∀ n ∈ [notifA1, notifB, notifA2], n.uuid = 10 → n ∈ out)
      ∧ (∀ n : ValueNotification,
          out.count n = if n.uuid = 10 then [notifA1, notifB, notifA2].count n else 0) :=
  subscribe_filters_by_uuid pFooBar 10 charA [notifA1, notifB, notifA2] rfl rfl rfl rfl

/-- The search loop never produces `PeripheralNotFound`: its error exits
are the wrapped platform error, `PeripheralPropertiesNotFound` and
`LocalNameNotFound`. -/
theorem findLoop_fst_ne_peripheralNotFound (local_name : String) (ps : List Peripheral) :
    (findLoop local_name ps).1 ≠ FindOutcome.error Error.PeripheralNotFound := by
  induction ps with
  | nil => simp [findLoop]
  | cons p rest ih =>
    simp only [findLoop]
    split
    · simp
    · simp
    · split
      · simp
      · split
        · simp
        · simpa using ih

/-- `Central::peripherals` either fails with a wrapped platform error
(from obtaining the event stream or starting the scan) or returns the
projected stream. -/
theorem peripherals_cases (a : Adapter) :
    (∃ pe, Central.peripherals a = .error (Error.BtlePlug pe))
    ∨ (∃ evs, Central.peripherals a = .ok (Central.peripheralStream a evs)) := by
  cases he : a.eventsResult with
  | error pe =>
    left
    exact ⟨pe, by simp [Central.peripherals, Central.events, he]⟩
  | ok evs =>
    cases hs : a.startScanResult with
    | error pe =>
      left
      exact ⟨pe, by simp [Central.peripherals, Central.events, he, hs]⟩
    | ok u =>
      right
      exact ⟨evs, by simp [Central.peripherals, Central.events, he, hs]⟩

/-- Claim C10: no public operation of `Central` ever returns the error
variant `PeripheralNotFound` to a caller; it is constructed only inside
the internal event projection, where it is absorbed into a dropped
stream item. -/
theorem peripheralNotFound_never_surfaced :
    (∀ platform : Platform, Central.new platform ≠ .error Error.PeripheralNotFound)
    ∧ (∀ a : Adapter, Central.peripheral_properties a ≠ .error Error.PeripheralNotFound)
    ∧ (∀ a local_name,
        (Central.find_peripheral a local_name).1 ≠ FindOutcome.error Error.PeripheralNotFound)
    ∧ (∀ p u, (Central.read p u).1 ≠ .error Error.PeripheralNotFound)
    ∧ (∀ p u data, (Central.write p u data).1 ≠ .error Error.PeripheralNotFound)
    ∧ (∀ p u, (Central.subscribe p u).1 ≠ .error Error.PeripheralNotFound) := by
  refine ⟨?_, ?_, ?_, ?_, ?_, ?_⟩
  · intro platform
    unfold Central.new
    split
    · simp
    · split
      · simp
      · split <;> simp
  · intro a
    rcases peripherals_cases a with ⟨pe, h⟩ | ⟨evs, h⟩ <;>
      simp [Central.peripheral_properties, h]
  · intro a local_name
    rcases peripherals_cases a with ⟨pe, h⟩ | ⟨evs, h⟩
    · simp [Central.find_peripheral, h]
    · have hfl := findLoop_fst_ne_peripheralNotFound local_name (Central.peripheralStream a evs)
      rcases hl : findLoop local_name (Central.peripheralStream a evs) with ⟨o, t⟩
      rw [hl] at hfl
      simp only [Central.find_peripheral, h]
      rw [hl]
      cases o with
      | found peripheral =>
        cases hc : peripheral.connectResult with
        | error e => simp [hc]
        | ok v =>
          cases hd : peripheral.discoverServicesResult with
          | error e => simp [hc, hd]
          | ok w => simp [hc, hd]
      | error e => simpa using hfl
      | diverges => simp
  · intro p u
    unfold Central.read
    split
    · simp
    · split
      · simp
      · split <;> simp
  · intro p u data
    unfold Central.write
    split
    · simp
    · split
      · simp
      · split <;> simp
  · intro p u
    unfold Central.subscribe
    split
    · simp
    · split
      · simp
      · split
        · simp
        · split <;> simp

/-- Claim C10 witness: concrete instances of the non-surfacing fact on
the fixture platform, adapter and peripheral. -/
theorem peripheralNotFound_never_surfaced_witness :
    Central.new platformEx ≠ .error Error.PeripheralNotFound
    ∧ Central.peripheral_properties aEx ≠ .error Error.PeripheralNotFound
    ∧ (Central.find_peripheral aEx "Foo").1 ≠ FindOutcome.error Error.PeripheralNotFound
    ∧ (Central.read pFooBar 10).1 ≠ .error Error.PeripheralNotFound :=
  ⟨peripheralNotFound_never_surfaced.1 platformEx,
    peripheralNotFound_never_surfaced.2.1 aEx,
    peripheralNotFound_never_surfaced.2.2.1 aEx "Foo",
    peripheralNotFound_never_surfaced.2.2.2.1 pFooBar 10⟩

end IotSdk
